import Mathlib

/-!
Verification of the Face-Recognition service core: a shallow embedding of the
identity resolver (qdrant_database_FE/app.py), the database client
(app/src/utils/database_client.py), the quality-gate pipeline
(app/src/services/face_service.py, app/src/utils/legacy.py) and the enrollment
guard (FaceService.create_face), together with theorems settling the stated
properties of these components.  Scores, distances and vector entries are
modelled as exact rationals; results supplied by external collaborators
(face detector, landmark extractor, vector store ANN search) are parameters.
-/

namespace FaceRec

attribute [local semireducible] Rat.mul Rat.inv Rat.add Rat.sub Rat.ofScientific

/-- Payload stored with each point in the vector store, as built by the
insert_point endpoint of qdrant_database_FE/app.py (lines 231-236). -/
structure Payload where
  id : String
  name : String
  store_id : String
  time_created : String
  deriving DecidableEq

/-- One scored hit returned by the vector store search, scoped to one store. -/
structure ScoredPoint where
  score : ℚ
  payload : Payload
  deriving DecidableEq

/-- qdrant_database_FE/app.py line 41. -/
def THRESHOLD_PASS : ℚ := 54/100

/-- qdrant_database_FE/app.py line 42. -/
def THRESHOLD_SEARCH : ℚ := 54/100

/-- Keys of a Python dict in insertion order: each id at its first occurrence. -/
def firstOccs : List String → List String
  | [] => []
  | x :: xs => x :: (firstOccs xs).filter (fun y => y != x)

/-- The passing candidates of search_point: score at or above THRESHOLD_PASS
(the data list, app.py line 297). -/
def passing (result : List ScoredPoint) : List ScoredPoint :=
  result.filter (fun p => decide (THRESHOLD_PASS ≤ p.score))

/-- Vote count of an id over the passing candidates (the data_dict counters of
app.py lines 304-310). -/
def votes (result : List ScoredPoint) (id : String) : Nat :=
  ((passing result).filter (fun p => p.payload.id == id)).length

/-- The ids occurring among passing candidates, in first-occurrence order:
the keys of data_dict in dict insertion order. -/
def passingKeys (result : List ScoredPoint) : List String :=
  firstOccs ((passing result).map (fun p => p.payload.id))

/-- The re-filtered candidate list of the tie branch: the original unfiltered
result filtered by THRESHOLD_SEARCH (the data_result list, app.py line 316). -/
def searchFiltered (result : List ScoredPoint) : List ScoredPoint :=
  result.filter (fun p => decide (THRESHOLD_SEARCH ≤ p.score))

/-- Python max over dict keys with a value function: the first key (in
iteration order) attaining the maximal value, since max only replaces its
best on a strictly greater key. -/
def argmaxFirst (f : String → Nat) : List String → Option String
  | [] => none
  | x :: xs =>
    match argmaxFirst f xs with
    | none => some x
    | some y => if f x < f y then some y else some x

/-- Python max over hits keyed by score: the first hit attaining the maximal
score (app.py line 321). -/
def maxByScoreFirst : List ScoredPoint → Option ScoredPoint
  | [] => none
  | p :: ps =>
    match maxByScoreFirst ps with
    | none => some p
    | some q => if p.score < q.score then some q else some p

/-- Python max over a list of scores; none on the empty list. -/
def maxScores : List ℚ → Option ℚ
  | [] => none
  | x :: xs =>
    match maxScores xs with
    | none => some x
    | some y => some (max x y)

/-- The payload lookup loop of app.py lines 335-339: the payload of the first
candidate in provider order whose id matches. -/
def firstPayloadOf (result : List ScoredPoint) (id : String) : Option Payload :=
  (result.find? (fun p => p.payload.id == id)).map (fun p => p.payload)

/-- Outcome of the search_point endpoint as seen by its caller. -/
inductive SearchResponse where
  | collectionNotFound
  | invalidEmbedding
  | notFound
  | found (score : ℚ) (payload : Payload)
  deriving DecidableEq

/-- The vote/threshold disambiguation of search_point (app.py lines 295-341),
applied to the raw top-5 result list received from the vector store. -/
def resolvePoints (result : List ScoredPoint) : SearchResponse :=
  if (passing result).length = 0 then .notFound
  else if (((passingKeys result).map (votes result)).dedup).length = 1 ∧
      1 < (passingKeys result).length then
    match maxByScoreFirst (searchFiltered result) with
    | none => .notFound
    | some q => .found q.score q.payload
  else
    match argmaxFirst (votes result) (passingKeys result) with
    | none => .notFound
    | some id_max =>
      match maxScores ((result.filter (fun p => p.payload.id == id_max)).map
              (fun p => p.score)),
            firstPayloadOf result id_max with
      | some s, some pl => .found s pl
      | some _, none => .notFound
      | none, _ => .notFound

/-- The search_point endpoint (app.py lines 257-343): collection then embedding
dimension validation, then the resolver.  The raw vector-store result for the
query is a parameter. -/
def search_point (collection_ok : Bool) (vector_embedding : List ℚ)
    (result : List ScoredPoint) : SearchResponse :=
  if !collection_ok then .collectionNotFound
  else if vector_embedding.length ≠ 4096 then .invalidEmbedding
  else resolvePoints result

/-- DatabaseClient.search_point (database_client.py lines 206-254): a 404
response makes raise_for_status throw, the handler catches and returns the
empty list; only a response whose message is Point found yields rows. -/
def clientSearchPoint (resp : SearchResponse) : List ScoredPoint :=
  match resp with
  | .found s pl => [⟨s, pl⟩]
  | .notFound => []
  | .collectionNotFound => []
  | .invalidEmbedding => []

/-- FaceService.search_face formatted data (face_service.py lines 275-308). -/
def search_face (resp : SearchResponse) : List (ℚ × Payload) :=
  (clientSearchPoint resp).map (fun r => (r.score, r.payload))

/-- FaceService.extract_face_info (face_service.py lines 310-330). -/
def extract_face_info (searchData : List (ℚ × Payload)) :
    String × String × String :=
  match searchData with
  | [] => ("Unknown", "Unknown", "Unknown")
  | (_, pl) :: _ => (pl.id, pl.name, pl.time_created)

/-- Caller-visible identity resolution outcome of a lookup request. -/
inductive IdentityResolution where
  | matched (id name : String)
  | unmatched
  deriving DecidableEq

/-- The tail of FaceService.recognize_face (lines 414-455): unmatched exactly
when the extracted id and name are both Unknown. -/
def recognizeFromSearch (resp : SearchResponse) : IdentityResolution :=
  let info := extract_face_info (search_face resp)
  if info.1 = "Unknown" ∧ info.2.1 = "Unknown" then .unmatched
  else .matched info.1 info.2.1

/-! The quality-gate pipeline: legacy.py and FaceService.detect_and_embed_face. -/

/-- One face candidate as returned by the detection provider (the
DeepFace.extract_faces entries consumed by legacy.detect_face). -/
structure FaceCand where
  confidence : ℚ
  is_real : Bool
  x : ℚ
  y : ℚ
  w : ℚ
  h : ℚ
  deriving DecidableEq

/-- config/settings.py CONF_THRESHOLD = 0.8. -/
def CONF_THRESHOLD : ℚ := 8/10

/-- config/settings.py KNOWN_FACE_WIDTH = 14.3. -/
def KNOWN_FACE_WIDTH : ℚ := 143/10

/-- legacy.distance_face_to_camera (legacy.py lines 113-122), over exact
rationals.  Note that Python raises ZeroDivisionError when the box width P is
zero, while rational division returns 0 there; no claim touches that case. -/
def distance_face_to_camera (bbox_face : ℚ × ℚ × ℚ × ℚ) (width_or : ℚ) : ℚ :=
  let xmin := bbox_face.1
  let xmax := bbox_face.2.2.1
  let P := xmax - xmin
  let F_pixel := (4 * width_or) / (48/10)
  (KNOWN_FACE_WIDTH * F_pixel) / P

/-- The filter loop of legacy.detect_face (lines 88-101): the loop breaks at
the first candidate below the confidence threshold or flagged as spoofed, so
only the prefix of valid candidates is kept. -/
def takeValid : List FaceCand → List FaceCand
  | [] => []
  | c :: cs =>
    if c.confidence < CONF_THRESHOLD ∨ c.is_real = false then []
    else c :: takeValid cs

/-- legacy.detect_face (lines 77-103): the boxes and the per-candidate
estimated distances for the kept prefix of provider candidates.  The distance
of a candidate uses its raw box corners. -/
def detect_face (faces : List FaceCand) (img_width : ℚ) :
    List (ℚ × ℚ × ℚ × ℚ) × List ℚ :=
  let valid := takeValid faces
  (valid.map (fun c => (c.x, c.y, c.w, c.h)),
   valid.map (fun c =>
     distance_face_to_camera (c.x, c.y, c.x + c.w, c.y + c.h) img_width))

/-- np.argmin over a list: the index and value of the first minimal element;
none on the empty list, where numpy raises. -/
def argminFirst : List ℚ → Option (Nat × ℚ)
  | [] => none
  | d :: ds =>
    match argminFirst ds with
    | none => some (0, d)
    | some (j, m) => if m < d then some (j + 1, m) else some (0, d)

/-- Python int() applied to a float: truncation toward zero. -/
def pyInt (q : ℚ) : ℤ :=
  if q < 0 then -⌊-q⌋ else ⌊q⌋

/-- The distance gate of detect_and_embed_face (face_service.py lines
160-175): strictly below 20 is too close, strictly above 70 too far. -/
def distanceGate (d : ℚ) : Option String :=
  if d < 20 then some "Face is too close! Please move back"
  else if 70 < d then some "Face is too far! Please move forward"
  else none

/-- Outcome of FaceService.detect_and_embed_face: a (False, 400 JSON) return is
a quality rejection, (False, 500 JSON) a fault, (True, (None, img)) success
without an embedding, (True, (emb, img)) success with an embedding. -/
inductive PipeOutcome where
  | rejected (msg : String)
  | fault (msg : String)
  | okNoEmb
  | okEmb (emb : List ℚ)
  deriving DecidableEq

/-- The results supplied by the image decoder and the external face-analysis
provider for one request, consumed by detect_and_embed_face. -/
structure ProviderEnv where
  decode_ok : Bool
  flr_ok : Bool
  flr_msg : String
  eyes_ok : Bool
  detect_raises : Bool
  faces : List FaceCand
  img_width : ℚ
  img_height : ℚ
  full_face_ok : Bool
  full_face_msg : String
  blur_ok : Bool
  embed_raises : Bool
  emb : List ℚ
  is_real : Bool
  deriving DecidableEq

/-- The stages of detect_and_embed_face after the face crop (face_service.py
lines 187-259): the full-face then blur gates in checkin mode, then the
embedding call and the liveness gate. -/
def afterCrop (is_checkin : Bool) (env : ProviderEnv) : PipeOutcome :=
  if is_checkin && !env.full_face_ok then .rejected env.full_face_msg
  else if is_checkin && !env.blur_ok then
    .rejected "Face is blur! Please keep your face in focus"
  else if env.embed_raises then .fault "Error! Please try again"
  else if !env.is_real && is_checkin then
    .rejected "Face is not real! Please use your real face"
  else .okEmb env.emb

/-- FaceService.detect_and_embed_face (face_service.py lines 54-273).  The
selected box coordinates are truncated with int() before the gate distance is
recomputed from them (lines 150-155). -/
def detect_and_embed_face (is_detect_face is_checkin : Bool)
    (env : ProviderEnv) : PipeOutcome :=
  if !env.decode_ok then .fault "Error when detecting face! Please try again"
  else if is_checkin && !env.flr_ok then .rejected env.flr_msg
  else if is_checkin && !env.eyes_ok then
    .rejected "Eyes are closed! Please open your eyes"
  else if is_detect_face && env.detect_raises then
    if is_checkin then .fault "Error when detecting face! Please try again"
    else .okNoEmb
  else
    let bd :=
      if is_detect_face then detect_face env.faces env.img_width
      else ([(0, 0, env.img_width, env.img_height)], [50])
    match argminFirst bd.2 with
    | none => .fault "Error when processing face! Please try again"
    | some (idx_large, _) =>
      match bd.1[idx_large]? with
      | none => .fault "Error when processing face! Please try again"
      | some box =>
        let x1 : ℚ := (pyInt box.1 : ℤ)
        let y1 : ℚ := (pyInt box.2.1 : ℤ)
        let x2 : ℚ := (pyInt (box.1 + box.2.2.1) : ℤ)
        let y2 : ℚ := (pyInt (box.2.1 + box.2.2.2) : ℤ)
        if is_checkin then
          match distanceGate
              (distance_face_to_camera (x1, y1, x2, y2) env.img_width) with
          | some m => .rejected m
          | none => afterCrop is_checkin env
        else afterCrop is_checkin env

/-! The store, the insert_point endpoint and the enrollment guard. -/

/-- A point stored in a qdrant collection: the qdrant point id (a uuid4 value,
modelled as a number), the vector and the payload. -/
structure StoredPoint where
  point_id : Nat
  vector : List ℚ
  payload : Payload
  deriving DecidableEq

/-- qdrant upsert semantics: replace the point carrying the same point id if
present, otherwise append the new point. -/
def upsertPoint (store : List StoredPoint) (pt : StoredPoint) :
    List StoredPoint :=
  if store.any (fun q => q.point_id == pt.point_id) then
    store.map (fun q => if q.point_id == pt.point_id then pt else q)
  else store ++ [pt]

/-- app.py _get_points (lines 75-92): scroll filtered on the payload id. -/
def _get_points (store : List StoredPoint) (id : String) : List StoredPoint :=
  store.filter (fun p => p.payload.id == id)

/-- Outcome of the insert_point endpoint (app.py lines 206-254). -/
inductive InsertResponse where
  | inserted
  | collectionNotFound
  | invalidEmbedding
  | invalidId
  | invalidName
  | idNotFound
  deriving DecidableEq

/-- The insert_point endpoint (app.py lines 206-254).  freshId stands for the
uuid4 value drawn at line 230, now for the formatted current date.  With the
update flag the existing point id and the existing payload are reused
(lines 238-244), so only the vector is replaced. -/
def insert_point (collection_ok : Bool) (freshId : Nat) (now : String)
    (store : List StoredPoint) (embedding : List ℚ)
    (id name store_id : String) (is_update_id : Bool) :
    InsertResponse × List StoredPoint :=
  if !collection_ok then (.collectionNotFound, store)
  else if embedding.length ≠ 4096 then (.invalidEmbedding, store)
  else if id = "" then (.invalidId, store)
  else if id = "" then (.invalidName, store)
  else if is_update_id then
    match _get_points store id with
    | [] => (.idNotFound, store)
    | p :: _ => (.inserted, upsertPoint store ⟨p.point_id, embedding, p.payload⟩)
  else
    (.inserted, upsertPoint store ⟨freshId, embedding, ⟨id, name, store_id, now⟩⟩)

/-- legacy.check_condition (legacy.py lines 278-292); id and name are the
request fields, with the Python None modelled as none.  The source guard at
line 227 of app.py retests id instead of name; the corresponding guard here is
the name branch of insert_point, which likewise retests id. -/
def check_condition (is_checkin : Bool) (id name : Option String)
    (img_len : Nat) (role store_id : String) : Bool × String :=
  if is_checkin = false ∧
      (id = none ∨ name = none ∨ id = some "" ∨ name = some "") then
    (false, "id and name are required")
  else if img_len = 0 then (false, "invalid")
  else if role ≠ "1" ∧ role ≠ "0" then (false, "invalid")
  else if store_id = "" then (false, "store_id is required")
  else (true, "Success")

/-- Outcome of FaceService.create_face (face_service.py lines 479-616). -/
inductive CreateResponse where
  | condFail (msg : String)
  | invalidRole
  | collectionErr
  | pipeRejected (msg : String)
  | pipeFault (msg : String)
  | okNoEmb
  | duplicate
  | insertErr
  | created
  deriving DecidableEq

/-- FaceService.create_face (face_service.py lines 479-616).  The vector-store
search response for the fresh embedding is the searchResp parameter; the
pipeline runs with is_detect_face true and is_checkin false.  The insert at
line 584 passes is_update_id as False even when the update flag is set
(line 590 of the source). -/
def create_face (update_face is_update : Bool) (id name : Option String)
    (img_len : Nat) (role store_id : String) (collection_ok : Bool)
    (env : ProviderEnv) (searchResp : SearchResponse)
    (freshId : Nat) (now : String) (store : List StoredPoint) :
    CreateResponse × List StoredPoint :=
  let is_update2 := update_face || is_update
  let cond := check_condition false id name img_len role store_id
  if cond.1 = false then (.condFail cond.2, store)
  else if role ≠ "1" ∧ role ≠ "0" then (.invalidRole, store)
  else if !collection_ok then (.collectionErr, store)
  else
    match detect_and_embed_face true false env with
    | .rejected m => (.pipeRejected m, store)
    | .fault m => (.pipeFault m, store)
    | .okNoEmb => (.okNoEmb, store)
    | .okEmb emb =>
      if is_update2 = false ∧ 0 < (search_face searchResp).length then
        (.duplicate, store)
      else
        let res := insert_point collection_ok freshId now store emb
          (id.getD "") (name.getD "") store_id false
        if res.1 = .inserted then (.created, res.2)
        else (.insertErr, res.2)

/-! Concrete inputs used by the witnesses and counterexamples below. -/

/-- Identity A of the worked resolver examples. -/
def pidA : Payload := ⟨"A", "Alice", "s1", "d"⟩

/-- Identity B of the worked resolver examples. -/
def pidB : Payload := ⟨"B", "Bob", "s1", "d"⟩

/-- Identity C of the worked resolver examples. -/
def pidC : Payload := ⟨"C", "Carol", "s1", "d"⟩

/-- Identity D of the worked resolver examples. -/
def pidD : Payload := ⟨"D", "Dan", "s1", "d"⟩

/-- Identity E of the worked resolver examples. -/
def pidE : Payload := ⟨"E", "Eve", "s1", "d"⟩

/-- Identity X used by the store examples. -/
def pidX : Payload := ⟨"X", "Xavier", "s1", "d"⟩

/-- The majority worked example: scores 0.90 A, 0.88 A, 0.60 B, 0.50 C, 0.40 C. -/
def exMajority : List ScoredPoint :=
  [⟨9/10, pidA⟩, ⟨88/100, pidA⟩, ⟨6/10, pidB⟩, ⟨5/10, pidC⟩, ⟨4/10, pidC⟩]

/-- The tie worked example: scores 0.60 A, 0.55 B, 0.40 C, 0.30 D, 0.20 E. -/
def exTie : List ScoredPoint :=
  [⟨6/10, pidA⟩, ⟨55/100, pidB⟩, ⟨4/10, pidC⟩, ⟨3/10, pidD⟩, ⟨2/10, pidE⟩]

/-- A vector-store result list holding one strong hit. -/
def exResultC5 : List ScoredPoint := [⟨9/10, pidX⟩]

/-- A provider environment where every stage succeeds but the detector reports
zero face candidates. -/
def envNoFaces : ProviderEnv :=
  ⟨true, true, "straight", true, false, [], 640, 480, true, "", true, false,
   [1], true⟩

/-- A valid detection candidate: confidence 0.9, real, box 100 wide; with image
width 480 its estimated camera distance is 57.2, inside the gate band. -/
def fcGood : FaceCand := ⟨9/10, true, 0, 0, 100, 100⟩

/-- An environment failing both stage-2 checks: the face looks left and the
eyes are closed. -/
def envStage2 : ProviderEnv :=
  ⟨true, false, "Face is looking left! Please look straight", false, false,
   [fcGood], 480, 480, true, "", true, false, [1], true⟩

/-- An environment failing both stage-6 checks: the mouth keypoint is out of
frame and the crop is blurred. -/
def envStage6 : ProviderEnv :=
  ⟨true, true, "straight", true, false, [fcGood], 480, 480, false,
   "Your mouth is not detected! Please show your face", false, false, [1], true⟩

/-- An environment on which the enroll-mode pipeline succeeds with
embedding [1]. -/
def envEnroll : ProviderEnv :=
  ⟨true, true, "straight", true, false, [fcGood], 480, 480, true, "", true,
   false, [1], true⟩

/-- The stored 4096-dimensional vector of the pre-existing record. -/
def oldVec : List ℚ := List.replicate 4096 1

/-- The freshly computed 4096-dimensional embedding of the update request. -/
def newVec : List ℚ := List.replicate 4096 (1/2)

/-- An environment on which the enroll-mode pipeline succeeds with the fresh
4096-dimensional embedding. -/
def envUpdate : ProviderEnv :=
  ⟨true, true, "straight", true, false, [fcGood], 480, 480, true, "", true,
   false, newVec, true⟩

/-- A store holding exactly one record for subject id X. -/
def store0 : List StoredPoint :=
  [⟨0, oldVec, ⟨"X", "Old Name", "s1", "2024/01/01"⟩⟩]

/-- A candidate whose estimated distance at image width 12 is 55. -/
def fc55 : FaceCand := ⟨9/10, true, 0, 0, 143/55, 10⟩

/-- A candidate whose estimated distance at image width 12 is 30. -/
def fc30 : FaceCand := ⟨9/10, true, 0, 0, 143/30, 10⟩

/-- A candidate whose estimated distance at image width 12 is 90. -/
def fc90 : FaceCand := ⟨9/10, true, 0, 0, 143/90, 10⟩

/-- The worked multi-face example: candidate distances 55, 30, 90. -/
def exFaces : List FaceCand := [fc55, fc30, fc90]

/-! Helper lemmas about the combinators of the embedding. -/

theorem firstOccs_subset {a : String} :
    ∀ {l : List String}, a ∈ firstOccs l → a ∈ l
  | [], h => by simp [firstOccs] at h
  | x :: xs, h => by
    simp only [firstOccs, List.mem_cons] at h
    rcases h with h | h
    · exact h ▸ List.mem_cons_self x xs
    · exact List.mem_cons_of_mem x (firstOccs_subset (List.mem_of_mem_filter h))

theorem argmaxFirst_eq_none (f : String → Nat) :
    ∀ {l : List String}, argmaxFirst f l = none → l = []
  | [], _ => rfl
  | x :: xs, h => by
    simp only [argmaxFirst] at h
    cases hxs : argmaxFirst f xs with
    | none =>
      rw [hxs] at h
      have h2 : some x = (none : Option String) := h
      simp at h2
    | some y =>
      rw [hxs] at h
      have h2 : (if f x < f y then some y else some x) = none := h
      revert h2
      split <;> simp

theorem argmaxFirst_isSome (f : String → Nat) :
    ∀ (l : List String), l ≠ [] → ∃ m, argmaxFirst f l = some m
  | [], h => absurd rfl h
  | x :: xs, _ => by
    simp only [argmaxFirst]
    cases argmaxFirst f xs with
    | none => exact ⟨x, rfl⟩
    | some y =>
      by_cases hxy : f x < f y
      · exact ⟨y, by simp [hxy]⟩
      · exact ⟨x, by simp [hxy]⟩

theorem argmaxFirst_spec (f : String → Nat) :
    ∀ {l : List String} {m : String}, argmaxFirst f l = some m →
      m ∈ l ∧ ∀ x ∈ l, f x ≤ f m
  | [], m, h => by simp [argmaxFirst] at h
  | x :: xs, m, h => by
    simp only [argmaxFirst] at h
    cases hxs : argmaxFirst f xs with
    | none =>
      rw [hxs] at h
      have hnil := argmaxFirst_eq_none f hxs
      subst hnil
      have h2 : some x = some m := h
      simp only [Option.some.injEq] at h2
      subst h2
      exact ⟨List.mem_cons_self _ _, by simp⟩
    | some y =>
      rw [hxs] at h
      have h2 : (if f x < f y then some y else some x) = some m := h
      have ih := argmaxFirst_spec f hxs
      by_cases hxy : f x < f y
      · rw [if_pos hxy] at h2
        simp only [Option.some.injEq] at h2
        subst h2
        refine ⟨List.mem_cons_of_mem _ ih.1, ?_⟩
        intro z hz
        rcases List.mem_cons.mp hz with rfl | hz
        · exact Nat.le_of_lt hxy
        · exact ih.2 z hz
      · rw [if_neg hxy] at h2
        simp only [Option.some.injEq] at h2
        subst h2
        refine ⟨List.mem_cons_self _ _, ?_⟩
        intro z hz
        rcases List.mem_cons.mp hz with rfl | hz
        · exact Nat.le_refl _
        · exact Nat.le_trans (ih.2 z hz) (Nat.le_of_not_lt hxy)

theorem maxByScoreFirst_eq_none :
    ∀ {l : List ScoredPoint}, maxByScoreFirst l = none → l = []
  | [], _ => rfl
  | p :: ps, h => by
    simp only [maxByScoreFirst] at h
    cases hps : maxByScoreFirst ps with
    | none =>
      rw [hps] at h
      have h2 : some p = (none : Option ScoredPoint) := h
      simp at h2
    | some q =>
      rw [hps] at h
      have h2 : (if p.score < q.score then some q else some p) = none := h
      revert h2
      split <;> simp

theorem maxByScoreFirst_isSome :
    ∀ {l : List ScoredPoint}, l ≠ [] → ∃ q, maxByScoreFirst l = some q
  | [], h => absurd rfl h
  | p :: ps, _ => by
    simp only [maxByScoreFirst]
    cases maxByScoreFirst ps with
    | none => exact ⟨p, rfl⟩
    | some q =>
      by_cases hpq : p.score < q.score
      · exact ⟨q, by simp [hpq]⟩
      · exact ⟨p, by simp [hpq]⟩

theorem maxByScoreFirst_decomp :
    ∀ {l : List ScoredPoint} {q : ScoredPoint}, maxByScoreFirst l = some q →
      ∃ l1 l2, l = l1 ++ q :: l2 ∧ (∀ p ∈ l1, p.score < q.score) ∧
        ∀ p ∈ l2, p.score ≤ q.score
  | [], q, h => by simp [maxByScoreFirst] at h
  | p :: ps, q, h => by
    simp only [maxByScoreFirst] at h
    cases hps : maxByScoreFirst ps with
    | none =>
      rw [hps] at h
      have hnil := maxByScoreFirst_eq_none hps
      subst hnil
      have h3 : some p = some q := h
      simp only [Option.some.injEq] at h3
      subst h3
      exact ⟨[], [], rfl, by simp, by simp⟩
    | some r =>
      rw [hps] at h
      have h3 : (if p.score < r.score then some r else some p) = some q := h
      obtain ⟨l1, l2, hsplit, h1, h2⟩ := maxByScoreFirst_decomp hps
      by_cases hpr : p.score < r.score
      · rw [if_pos hpr] at h3
        simp only [Option.some.injEq] at h3
        subst h3
        refine ⟨p :: l1, l2, by rw [hsplit]; rfl, ?_, h2⟩
        intro z hz
        rcases List.mem_cons.mp hz with rfl | hz
        · exact hpr
        · exact h1 z hz
      · rw [if_neg hpr] at h3
        simp only [Option.some.injEq] at h3
        subst h3
        refine ⟨[], ps, rfl, by simp, ?_⟩
        intro z hz
        rw [hsplit] at hz
        rcases List.mem_append.mp hz with hz | hz
        · exact le_of_lt (lt_of_lt_of_le (h1 z hz) (le_of_not_lt hpr))
        · rcases List.mem_cons.mp hz with rfl | hz
          · exact le_of_not_lt hpr
          · exact le_trans (h2 z hz) (le_of_not_lt hpr)

theorem maxScores_eq_none :
    ∀ {l : List ℚ}, maxScores l = none → l = []
  | [], _ => rfl
  | x :: xs, h => by
    simp only [maxScores] at h
    cases hxs : maxScores xs with
    | none =>
      rw [hxs] at h
      have h2 : some x = (none : Option ℚ) := h
      simp at h2
    | some y =>
      rw [hxs] at h
      have h2 : some (max x y) = (none : Option ℚ) := h
      simp at h2

theorem maxScores_isSome :
    ∀ {l : List ℚ}, l ≠ [] → ∃ s, maxScores l = some s
  | [], h => absurd rfl h
  | x :: xs, _ => by
    simp only [maxScores]
    cases maxScores xs with
    | none => exact ⟨x, rfl⟩
    | some y => exact ⟨max x y, rfl⟩

theorem maxScores_mem :
    ∀ {l : List ℚ} {s : ℚ}, maxScores l = some s → s ∈ l
  | [], s, h => by simp [maxScores] at h
  | x :: xs, s, h => by
    simp only [maxScores] at h
    cases hxs : maxScores xs with
    | none =>
      rw [hxs] at h
      have h2 : some x = some s := h
      simp only [Option.some.injEq] at h2
      subst h2
      exact List.mem_cons_self _ _
    | some y =>
      rw [hxs] at h
      have h2 : some (max x y) = some s := h
      simp only [Option.some.injEq] at h2
      rcases max_choice x y with hc | hc
      · rw [hc] at h2
        subst h2
        exact List.mem_cons_self _ _
      · rw [hc] at h2
        subst h2
        exact List.mem_cons_of_mem _ (maxScores_mem hxs)

theorem maxScores_le :
    ∀ {l : List ℚ} {s : ℚ}, maxScores l = some s → ∀ x ∈ l, x ≤ s
  | [], s, _, x, hx => absurd hx (List.not_mem_nil x)
  | y :: ys, s, h, x, hx => by
    simp only [maxScores] at h
    cases hys : maxScores ys with
    | none =>
      rw [hys] at h
      have h2 : some y = some s := h
      simp only [Option.some.injEq] at h2
      have hnil := maxScores_eq_none hys
      subst hnil
      subst h2
      rcases List.mem_cons.mp hx with rfl | hx
      · exact le_refl _
      · exact absurd hx (List.not_mem_nil x)
    | some t =>
      rw [hys] at h
      have h2 : some (max y t) = some s := h
      simp only [Option.some.injEq] at h2
      subst h2
      rcases List.mem_cons.mp hx with rfl | hx
      · exact le_max_left _ _
      · exact le_trans (maxScores_le hys x hx) (le_max_right _ _)

theorem maxScores_eq_of {l : List ℚ} {s : ℚ} (hmem : s ∈ l)
    (hle : ∀ x ∈ l, x ≤ s) : maxScores l = some s := by
  obtain ⟨t, ht⟩ := maxScores_isSome (List.ne_nil_of_mem hmem)
  have h1 : t ≤ s := hle t (maxScores_mem ht)
  have h2 : s ≤ t := maxScores_le ht s hmem
  rw [ht, le_antisymm h1 h2]

theorem find?_isSome_of {α : Type} {p : α → Bool} :
    ∀ {l : List α} {a : α}, a ∈ l → p a = true → ∃ b, l.find? p = some b
  | [], a, ha, _ => absurd ha (List.not_mem_nil a)
  | x :: xs, a, ha, hp => by
    by_cases hx : p x = true
    · exact ⟨x, by rw [List.find?_cons_of_pos _ hx]⟩
    · rcases List.mem_cons.mp ha with rfl | ha2
      · exact absurd hp hx
      · obtain ⟨b, hb⟩ := find?_isSome_of ha2 hp
        exact ⟨b, by rw [List.find?_cons_of_neg _ (by simpa using hx), hb]⟩

theorem mem_passing {result : List ScoredPoint} {p : ScoredPoint} :
    p ∈ passing result ↔ p ∈ result ∧ THRESHOLD_PASS ≤ p.score := by
  simp [passing, List.mem_filter]

theorem mem_passingKeys {result : List ScoredPoint} {m : String}
    (hm : m ∈ passingKeys result) :
    ∃ p, p ∈ passing result ∧ p.payload.id = m := by
  have h1 : m ∈ (passing result).map (fun p => p.payload.id) :=
    firstOccs_subset hm
  obtain ⟨p, hp, hpm⟩ := List.mem_map.mp h1
  exact ⟨p, hp, hpm⟩

theorem maxScores_filter_passing {result : List ScoredPoint} {m : String}
    (hm : m ∈ passingKeys result) :
    maxScores ((result.filter (fun p => p.payload.id == m)).map
        (fun p => p.score)) =
      maxScores (((passing result).filter (fun p => p.payload.id == m)).map
        (fun p => p.score)) := by
  obtain ⟨p0, hp0pass, hp0id⟩ := mem_passingKeys hm
  have hp0res : p0 ∈ result := (mem_passing.mp hp0pass).1
  have hp0sc : THRESHOLD_PASS ≤ p0.score := (mem_passing.mp hp0pass).2
  have hmemA : p0.score ∈ (result.filter (fun p => p.payload.id == m)).map
      (fun p => p.score) :=
    List.mem_map_of_mem _ (List.mem_filter.mpr ⟨hp0res, by simp [hp0id]⟩)
  obtain ⟨sA, hsA⟩ := maxScores_isSome (List.ne_nil_of_mem hmemA)
  obtain ⟨pa, hpa, hpaeq⟩ := List.mem_map.mp (maxScores_mem hsA)
  have hpares : pa ∈ result := (List.mem_filter.mp hpa).1
  have hpaid : pa.payload.id = m := by
    have := (List.mem_filter.mp hpa).2
    simpa using this
  have hp0le : p0.score ≤ sA := maxScores_le hsA _ hmemA
  have hsapass : THRESHOLD_PASS ≤ sA := le_trans hp0sc hp0le
  have hmemB : sA ∈ ((passing result).filter (fun p => p.payload.id == m)).map
      (fun p => p.score) := by
    refine List.mem_map.mpr ⟨pa, List.mem_filter.mpr
      ⟨mem_passing.mpr ⟨hpares, ?_⟩, by simp [hpaid]⟩, hpaeq⟩
    rw [show pa.score = sA from hpaeq]
    exact hsapass
  have hleB : ∀ y ∈ ((passing result).filter (fun p => p.payload.id == m)).map
      (fun p => p.score), y ≤ sA := by
    intro y hy
    obtain ⟨pb, hpb, hpbeq⟩ := List.mem_map.mp hy
    have hpbpass : pb ∈ passing result := (List.mem_filter.mp hpb).1
    have hpbid := (List.mem_filter.mp hpb).2
    have hpbres : pb ∈ result := (mem_passing.mp hpbpass).1
    have hyA : y ∈ (result.filter (fun p => p.payload.id == m)).map
        (fun p => p.score) :=
      List.mem_map.mpr ⟨pb, List.mem_filter.mpr ⟨hpbres, hpbid⟩, hpbeq⟩
    exact maxScores_le hsA y hyA
  rw [hsA, maxScores_eq_of hmemB hleB]

theorem argminFirst_eq_none :
    ∀ {l : List ℚ}, argminFirst l = none → l = []
  | [], _ => rfl
  | d :: ds, h => by
    simp only [argminFirst] at h
    cases hds : argminFirst ds with
    | none =>
      rw [hds] at h
      have h2 : some (0, d) = (none : Option (Nat × ℚ)) := h
      simp at h2
    | some jm =>
      obtain ⟨j, m⟩ := jm
      rw [hds] at h
      have h2 : (if m < d then some (j + 1, m) else some (0, d)) = none := h
      revert h2
      split <;> simp

theorem argminFirst_isSome :
    ∀ {l : List ℚ}, l ≠ [] → ∃ i m, argminFirst l = some (i, m)
  | [], h => absurd rfl h
  | d :: ds, _ => by
    simp only [argminFirst]
    cases argminFirst ds with
    | none => exact ⟨0, d, rfl⟩
    | some jm =>
      obtain ⟨j, m⟩ := jm
      by_cases hmd : m < d
      · exact ⟨j + 1, m, by simp [hmd]⟩
      · exact ⟨0, d, by simp [hmd]⟩

theorem argminFirst_decomp :
    ∀ {l : List ℚ} {i : Nat} {m : ℚ}, argminFirst l = some (i, m) →
      ∃ l1 l2, l = l1 ++ m :: l2 ∧ l1.length = i ∧ (∀ x ∈ l1, m < x) ∧
        ∀ x ∈ l2, m ≤ x
  | [], i, m, h => by simp [argminFirst] at h
  | d :: ds, i, m, h => by
    simp only [argminFirst] at h
    cases hds : argminFirst ds with
    | none =>
      rw [hds] at h
      have hnil := argminFirst_eq_none hds
      subst hnil
      have h2 : some ((0 : Nat), d) = some (i, m) := h
      simp only [Option.some.injEq, Prod.mk.injEq] at h2
      obtain ⟨hi, hm⟩ := h2
      subst hi
      subst hm
      exact ⟨[], [], rfl, rfl, by simp, by simp⟩
    | some jr =>
      obtain ⟨j, r⟩ := jr
      rw [hds] at h
      have h2 : (if r < d then some (j + 1, r) else some ((0 : Nat), d)) =
        some (i, m) := h
      obtain ⟨l1, l2, hsplit, hlen, h1, hrest⟩ := argminFirst_decomp hds
      by_cases hrd : r < d
      · rw [if_pos hrd] at h2
        simp only [Option.some.injEq, Prod.mk.injEq] at h2
        obtain ⟨hi, hm⟩ := h2
        subst hi
        subst hm
        refine ⟨d :: l1, l2, by rw [hsplit]; rfl, by simp [hlen], ?_, hrest⟩
        intro z hz
        rcases List.mem_cons.mp hz with rfl | hz
        · exact hrd
        · exact h1 z hz
      · rw [if_neg hrd] at h2
        simp only [Option.some.injEq, Prod.mk.injEq] at h2
        obtain ⟨hi, hm⟩ := h2
        subst hi
        subst hm
        refine ⟨[], ds, rfl, rfl, by simp, ?_⟩
        intro z hz
        have hdr : d ≤ r := le_of_not_lt hrd
        rw [hsplit] at hz
        rcases List.mem_append.mp hz with hz | hz
        · exact le_of_lt (lt_of_le_of_lt hdr (h1 z hz))
        · rcases List.mem_cons.mp hz with rfl | hz
          · exact hdr
          · exact le_trans hdr (hrest z hz)

theorem insert_point_fresh (freshId : Nat) (now : String)
    (store : List StoredPoint) (embedding : List ℚ)
    (id name store_id : String) (hlen : embedding.length = 4096)
    (hid : id ≠ "") :
    insert_point true freshId now store embedding id name store_id false =
      (.inserted,
       upsertPoint store ⟨freshId, embedding, ⟨id, name, store_id, now⟩⟩) := by
  simp [insert_point, hlen, hid]

theorem argminFirst_map_get {α : Type} (f : α → ℚ) :
    ∀ {l : List α} {i : Nat} {m : ℚ}, argminFirst (l.map f) = some (i, m) →
      ∃ c, l[i]? = some c ∧ f c = m
  | [], i, m, h => by simp [argminFirst] at h
  | a :: as, i, m, h => by
    simp only [List.map_cons, argminFirst] at h
    cases has : argminFirst (as.map f) with
    | none =>
      rw [has] at h
      have h2 : some ((0 : Nat), f a) = some (i, m) := h
      simp only [Option.some.injEq, Prod.mk.injEq] at h2
      obtain ⟨hi, hm⟩ := h2
      subst hi
      subst hm
      exact ⟨a, by simp, rfl⟩
    | some jr =>
      obtain ⟨j, r⟩ := jr
      rw [has] at h
      have h2 : (if r < f a then some (j + 1, r) else some ((0 : Nat), f a)) =
        some (i, m) := h
      by_cases hrd : r < f a
      · rw [if_pos hrd] at h2
        simp only [Option.some.injEq, Prod.mk.injEq] at h2
        obtain ⟨hi, hm⟩ := h2
        subst hi
        subst hm
        obtain ⟨c, hc, hfc⟩ := argminFirst_map_get f has
        exact ⟨c, by simpa using hc, hfc⟩
      · rw [if_neg hrd] at h2
        simp only [Option.some.injEq, Prod.mk.injEq] at h2
        obtain ⟨hi, hm⟩ := h2
        subst hi
        subst hm
        exact ⟨a, by simp, rfl⟩

/-! The claim theorems. -/

/-- C1: Resolver majority case.  For every candidate list whose per-identity
vote counts over the passing set are not all equal, the resolver returns found
for an id m whose vote count is maximal, with representative score the maximum
score among the passing candidates of m and payload the first candidate of m
in provider order. -/
theorem resolver_majority_case (result : List ScoredPoint)
    (h : 2 ≤ (((passingKeys result).map (votes result)).dedup).length) :
    ∃ m s pl,
      argmaxFirst (votes result) (passingKeys result) = some m ∧
      (∀ id ∈ passingKeys result, votes result id ≤ votes result m) ∧
      maxScores (((passing result).filter (fun p => p.payload.id == m)).map
        (fun p => p.score)) = some s ∧
      firstPayloadOf result m = some pl ∧
      resolvePoints result = .found s pl := by
  have hkeys : passingKeys result ≠ [] := by
    intro hk
    rw [hk] at h
    simp at h
  obtain ⟨m, hm⟩ := argmaxFirst_isSome (votes result) _ hkeys
  obtain ⟨hmmem, hmmax⟩ := argmaxFirst_spec (votes result) hm
  obtain ⟨p0, hp0pass, hp0id⟩ := mem_passingKeys hmmem
  have hpassne : passing result ≠ [] := List.ne_nil_of_mem hp0pass
  have hlen : ¬ (passing result).length = 0 := by
    simpa [List.length_eq_zero] using hpassne
  have hcond : ¬ ((((passingKeys result).map (votes result)).dedup).length = 1 ∧
      1 < (passingKeys result).length) := by
    intro hc
    have := hc.1
    omega
  have hmemA : p0.score ∈ (result.filter (fun p => p.payload.id == m)).map
      (fun p => p.score) :=
    List.mem_map_of_mem _ (List.mem_filter.mpr
      ⟨(mem_passing.mp hp0pass).1, by simp [hp0id]⟩)
  obtain ⟨sA, hsA⟩ := maxScores_isSome (List.ne_nil_of_mem hmemA)
  obtain ⟨b, hb⟩ := find?_isSome_of (l := result)
    (mem_passing.mp hp0pass).1 (p := fun p => p.payload.id == m) (by simp [hp0id])
  refine ⟨m, sA, b.payload, hm, hmmax, ?_, ?_, ?_⟩
  · rw [← maxScores_filter_passing hmmem]
    exact hsA
  · simp [firstPayloadOf, hb]
  · unfold resolvePoints
    rw [if_neg hlen, if_neg hcond]
    simp [hm, hsA, firstPayloadOf, hb]

/-- Witness for C1 at the worked example: candidates 0.90 A, 0.88 A, 0.60 B,
0.50 C, 0.40 C resolve to found with score 0.90 and payload A. -/
theorem resolver_majority_case_witness :
    2 ≤ (((passingKeys exMajority).map (votes exMajority)).dedup).length ∧
    resolvePoints exMajority = .found (9/10) pidA ∧
    (∃ m s pl,
      argmaxFirst (votes exMajority) (passingKeys exMajority) = some m ∧
      (∀ id ∈ passingKeys exMajority, votes exMajority id ≤ votes exMajority m) ∧
      maxScores (((passing exMajority).filter (fun p => p.payload.id == m)).map
        (fun p => p.score)) = some s ∧
      firstPayloadOf exMajority m = some pl ∧
      resolvePoints exMajority = .found s pl) :=
  ⟨by decide, by decide, resolver_majority_case exMajority (by decide)⟩

/-- C2: Resolver tie case.  When the passing set is non-empty and all vote
counts are equal across more than one id, the resolver re-filters the original
top-5 by THRESHOLD_SEARCH; an empty re-filtered set gives notFound, otherwise
the result is the candidate with the globally highest score among the
re-filtered set, ties broken by first occurrence in provider order. -/
theorem resolver_tie_case (result : List ScoredPoint)
    (hEq : (((passingKeys result).map (votes result)).dedup).length = 1)
    (hMany : 1 < (passingKeys result).length) :
    (searchFiltered result = [] → resolvePoints result = .notFound) ∧
    ∀ q, maxByScoreFirst (searchFiltered result) = some q →
      resolvePoints result = .found q.score q.payload ∧
      ∃ l1 l2, searchFiltered result = l1 ++ q :: l2 ∧
        (∀ p ∈ l1, p.score < q.score) ∧ ∀ p ∈ l2, p.score ≤ q.score := by
  have hkeysne : passingKeys result ≠ [] := by
    intro hk
    rw [hk] at hMany
    simp at hMany
  have hpassne : passing result ≠ [] := by
    intro hp
    apply hkeysne
    unfold passingKeys
    rw [hp]
    rfl
  have hlen : ¬ (passing result).length = 0 := by
    simpa [List.length_eq_zero] using hpassne
  have hcond : (((passingKeys result).map (votes result)).dedup).length = 1 ∧
      1 < (passingKeys result).length := ⟨hEq, hMany⟩
  constructor
  · intro hsf
    unfold resolvePoints
    rw [if_neg hlen, if_pos hcond, hsf]
    rfl
  · intro q hq
    refine ⟨?_, maxByScoreFirst_decomp hq⟩
    unfold resolvePoints
    rw [if_neg hlen, if_pos hcond, hq]

/-- Witness for C2 at the worked example: candidates 0.60 A, 0.55 B, 0.40 C,
0.30 D, 0.20 E resolve through the tie branch to found with score 0.60 and
payload A. -/
theorem resolver_tie_case_witness :
    (((passingKeys exTie).map (votes exTie)).dedup).length = 1 ∧
    1 < (passingKeys exTie).length ∧
    (resolvePoints exTie = .found (6/10) pidA ∧
     ∃ l1 l2, searchFiltered exTie = l1 ++ (⟨6/10, pidA⟩ : ScoredPoint) :: l2 ∧
       (∀ p ∈ l1, p.score < (6/10 : ℚ)) ∧ ∀ p ∈ l2, p.score ≤ (6/10 : ℚ)) :=
  ⟨by decide, by decide,
   (resolver_tie_case exTie (by decide) (by decide)).2 ⟨6/10, pidA⟩ (by decide)⟩

/-- C10: because THRESHOLD_PASS and THRESHOLD_SEARCH are the same constant
0.54, the re-filtered set of the tie branch equals the passing set, so the tie
branch never returns notFound: it always resolves to a match. -/
theorem tie_branch_always_matches (result : List ScoredPoint)
    (hEq : (((passingKeys result).map (votes result)).dedup).length = 1)
    (hMany : 1 < (passingKeys result).length) :
    searchFiltered result = passing result ∧
    ∃ q, maxByScoreFirst (searchFiltered result) = some q ∧
      resolvePoints result = .found q.score q.payload := by
  have hsp : searchFiltered result = passing result := rfl
  have hkeysne : passingKeys result ≠ [] := by
    intro hk
    rw [hk] at hMany
    simp at hMany
  have hpassne : passing result ≠ [] := by
    intro hp
    apply hkeysne
    unfold passingKeys
    rw [hp]
    rfl
  have hlen : ¬ (passing result).length = 0 := by
    simpa [List.length_eq_zero] using hpassne
  have hcond : (((passingKeys result).map (votes result)).dedup).length = 1 ∧
      1 < (passingKeys result).length := ⟨hEq, hMany⟩
  have hsfne : searchFiltered result ≠ [] := by
    rw [hsp]
    exact hpassne
  obtain ⟨q, hq⟩ := maxByScoreFirst_isSome hsfne
  refine ⟨hsp, q, hq, ?_⟩
  unfold resolvePoints
  rw [if_neg hlen, if_pos hcond, hq]

/-- Witness for C10 at the tie worked example: the tie branch produces a
match, not notFound. -/
theorem tie_branch_always_matches_witness :
    (((passingKeys exTie).map (votes exTie)).dedup).length = 1 ∧
    1 < (passingKeys exTie).length ∧
    (searchFiltered exTie = passing exTie ∧
     ∃ q, maxByScoreFirst (searchFiltered exTie) = some q ∧
       resolvePoints exTie = .found q.score q.payload) :=
  ⟨by decide, by decide,
   tie_branch_always_matches exTie (by decide) (by decide)⟩

/-- C6: the distance gate of the identify pipeline rejects too close exactly
when the computed distance is below 20, too far exactly when it is above 70,
and both boundary values 20 and 70 pass the gate. -/
theorem distance_gate_boundaries :
    (∀ d : ℚ, distanceGate d = some "Face is too close! Please move back" ↔
      d < 20) ∧
    (∀ d : ℚ, distanceGate d = some "Face is too far! Please move forward" ↔
      70 < d) ∧
    distanceGate 20 = none ∧ distanceGate 70 = none ∧
    (∀ d : ℚ, 20 ≤ d → d ≤ 70 → distanceGate d = none) := by
  refine ⟨?_, ?_, ?_, ?_, ?_⟩
  · intro d
    constructor
    · intro hgate
      by_contra hlt
      simp only [distanceGate, if_neg hlt] at hgate
      by_cases h70 : (70 : ℚ) < d
      · rw [if_pos h70] at hgate
        exact absurd hgate (by decide)
      · rw [if_neg h70] at hgate
        exact absurd hgate (by decide)
    · intro hlt
      simp only [distanceGate, if_pos hlt]
  · intro d
    constructor
    · intro hgate
      by_cases hlt : d < 20
      · simp only [distanceGate, if_pos hlt] at hgate
        exact absurd hgate (by decide)
      · by_contra h70
        simp only [distanceGate, if_neg hlt, if_neg h70] at hgate
        exact absurd hgate (by decide)
    · intro h70
      have hlt : ¬ d < 20 := by linarith
      simp only [distanceGate, if_neg hlt, if_pos h70]
  · simp only [distanceGate, if_neg (by norm_num : ¬ (20 : ℚ) < 20),
      if_neg (by norm_num : ¬ (70 : ℚ) < 20)]
  · simp only [distanceGate, if_neg (by norm_num : ¬ (70 : ℚ) < 20),
      if_neg (by norm_num : ¬ (70 : ℚ) < 70)]
  · intro d h1 h2
    simp only [distanceGate, if_neg (by linarith : ¬ d < 20),
      if_neg (by linarith : ¬ (70 : ℚ) < d)]

/-- Witness for C6: 19.999 rejects too close, 70.001 rejects too far, 45
passes. -/
theorem distance_gate_boundaries_witness :
    distanceGate (19999/1000) = some "Face is too close! Please move back" ∧
    distanceGate (70001/1000) = some "Face is too far! Please move forward" ∧
    distanceGate 45 = none :=
  ⟨(distance_gate_boundaries.1 (19999/1000)).mpr (by norm_num),
   (distance_gate_boundaries.2.1 (70001/1000)).mpr (by norm_num),
   distance_gate_boundaries.2.2.2.2 45 (by norm_num) (by norm_num)⟩

/-- C7: for a non-empty detected candidate list the pipeline selects, via
np.argmin over the estimated distances, the candidate with the minimum
estimated distance, ties resolved to the first candidate in provider order;
the selected index addresses that candidate and its box. -/
theorem multi_face_selection (faces : List FaceCand) (w : ℚ)
    (hne : (detect_face faces w).2 ≠ []) :
    ∃ i m c, argminFirst ((detect_face faces w).2) = some (i, m) ∧
      (takeValid faces)[i]? = some c ∧
      (detect_face faces w).1[i]? = some (c.x, c.y, c.w, c.h) ∧
      m = distance_face_to_camera (c.x, c.y, c.x + c.w, c.y + c.h) w ∧
      ∃ l1 l2, (detect_face faces w).2 = l1 ++ m :: l2 ∧ l1.length = i ∧
        (∀ x ∈ l1, m < x) ∧ ∀ x ∈ l2, m ≤ x := by
  obtain ⟨i, m, him⟩ := argminFirst_isSome hne
  have hmap : (detect_face faces w).2 = (takeValid faces).map
      (fun c => distance_face_to_camera (c.x, c.y, c.x + c.w, c.y + c.h) w) :=
    rfl
  obtain ⟨c, hc, hfc⟩ := argminFirst_map_get _ (hmap ▸ him)
  refine ⟨i, m, c, him, hc, ?_, hfc.symm, argminFirst_decomp him⟩
  have hbox : (detect_face faces w).1 = (takeValid faces).map
      (fun c => (c.x, c.y, c.w, c.h)) := rfl
  rw [hbox, List.getElem?_map, hc]
  rfl

/-- Witness for C7 at the worked example: detected distances 55, 30, 90 select
index 1, the candidate at distance 30. -/
theorem multi_face_selection_witness :
    (detect_face exFaces 12).2 = [55, 30, 90] ∧
    argminFirst ((detect_face exFaces 12).2) = some (1, 30) ∧
    (∃ i m c, argminFirst ((detect_face exFaces 12).2) = some (i, m) ∧
      (takeValid exFaces)[i]? = some c ∧
      (detect_face exFaces 12).1[i]? = some (c.x, c.y, c.w, c.h) ∧
      m = distance_face_to_camera (c.x, c.y, c.x + c.w, c.y + c.h) 12 ∧
      ∃ l1 l2, (detect_face exFaces 12).2 = l1 ++ m :: l2 ∧ l1.length = i ∧
        (∀ x ∈ l1, m < x) ∧ ∀ x ∈ l2, m ≤ x) :=
  ⟨by decide, by decide, multi_face_selection exFaces 12 (by decide)⟩

/-- C3 counterexample: on a capture where the detector reports zero face
candidates the identify pipeline returns a 500 fault response, not a quality
rejection with a reason code. -/
theorem no_face_fault_counterexample :
    detect_and_embed_face true true envNoFaces =
      .fault "Error when processing face! Please try again" ∧
    ∀ msg, detect_and_embed_face true true envNoFaces ≠ .rejected msg := by
  constructor
  · rfl
  · intro msg h
    have h2 : PipeOutcome.fault "Error when processing face! Please try again" =
        PipeOutcome.rejected msg := h
    exact PipeOutcome.noConfusion h2

/-- C3 amended: when the detector returns zero candidates (without raising),
the selection step fails on the empty distance list and the pipeline returns
the 500 processing fault, in identify mode and in enroll mode alike. -/
theorem zero_faces_processing_fault (is_checkin : Bool) (env : ProviderEnv)
    (hdec : env.decode_ok = true) (hflr : env.flr_ok = true)
    (heyes : env.eyes_ok = true) (hdet : env.detect_raises = false)
    (hfaces : env.faces = []) :
    detect_and_embed_face true is_checkin env =
      .fault "Error when processing face! Please try again" := by
  simp [detect_and_embed_face, hdec, hflr, heyes, hdet, hfaces, detect_face,
    takeValid, argminFirst]

/-- Witness for the amended C3 at a concrete environment with an empty
candidate list. -/
theorem zero_faces_processing_fault_witness :
    envNoFaces.decode_ok = true ∧ envNoFaces.flr_ok = true ∧
    envNoFaces.eyes_ok = true ∧ envNoFaces.detect_raises = false ∧
    envNoFaces.faces = [] ∧
    detect_and_embed_face true true envNoFaces =
      .fault "Error when processing face! Please try again" :=
  ⟨rfl, rfl, rfl, rfl, rfl,
   zero_faces_processing_fault true envNoFaces rfl rfl rfl rfl rfl⟩

/-- C8: fan-out rejection priority.  When both stage-2 checks fail the
alignment message is reported, not the eyes-closed one; when both stage-6
checks fail the full-face message is reported, not the blur one. -/
theorem fanout_rejection_priority (env : ProviderEnv) :
    (env.decode_ok = true → env.flr_ok = false → env.eyes_ok = false →
      detect_and_embed_face true true env = .rejected env.flr_msg) ∧
    (env.decode_ok = true → env.flr_ok = true → env.eyes_ok = true →
      env.detect_raises = false → env.full_face_ok = false →
      env.blur_ok = false →
      ∀ i m box,
        argminFirst ((detect_face env.faces env.img_width).2) = some (i, m) →
        (detect_face env.faces env.img_width).1[i]? = some box →
        distanceGate (distance_face_to_camera
          (((pyInt box.1 : ℤ) : ℚ), ((pyInt box.2.1 : ℤ) : ℚ),
           ((pyInt (box.1 + box.2.2.1) : ℤ) : ℚ),
           ((pyInt (box.2.1 + box.2.2.2) : ℤ) : ℚ)) env.img_width) = none →
        detect_and_embed_face true true env = .rejected env.full_face_msg) := by
  constructor
  · intro hdec hflr _
    simp [detect_and_embed_face, hdec, hflr]
  · intro hdec hflr heyes hdet hfull _ i m box him hbox hgate
    simp [detect_and_embed_face, hdec, hflr, heyes, hdet, him, hbox, hgate,
      afterCrop, hfull]

/-- Witness for C8: an environment failing both stage-2 checks reports the
alignment message, one failing both stage-6 checks reports the full-face
message. -/
theorem fanout_rejection_priority_witness :
    detect_and_embed_face true true envStage2 =
      .rejected "Face is looking left! Please look straight" ∧
    detect_and_embed_face true true envStage6 =
      .rejected "Your mouth is not detected! Please show your face" :=
  ⟨(fanout_rejection_priority envStage2).1 rfl rfl rfl,
   (fanout_rejection_priority envStage6).2 rfl rfl rfl rfl rfl rfl
     0 (286/5) (0, 0, 100, 100) (by decide) (by decide) (by decide)⟩

/-- C5 counterexample: a zero-length embedding is answered with the 404
invalid-embedding response by the store front-end, which the database client
swallows into an empty result list, so the pipeline surfaces the request as
unmatched rather than as a fault. -/
theorem dim_mismatch_coerced_counterexample :
    search_point true [] exResultC5 = .invalidEmbedding ∧
    clientSearchPoint (search_point true [] exResultC5) = [] ∧
    recognizeFromSearch (search_point true [] exResultC5) = .unmatched :=
  ⟨rfl, rfl, rfl⟩

/-- C5 amended: for every embedding whose length differs from 4096 the store
front-end answers the 404 invalid-embedding response, the database client
returns the empty row list, and the recognize path reports unmatched. -/
theorem dim_mismatch_surfaces_unmatched (v : List ℚ)
    (result : List ScoredPoint) (h : v.length ≠ 4096) :
    search_point true v result = .invalidEmbedding ∧
    clientSearchPoint (search_point true v result) = [] ∧
    recognizeFromSearch (search_point true v result) = .unmatched := by
  have h1 : search_point true v result = .invalidEmbedding := by
    simp [search_point, h]
  refine ⟨h1, ?_, ?_⟩
  · rw [h1]
    rfl
  · rw [h1]
    rfl

/-- Witness for the amended C5 at a length-3 embedding. -/
theorem dim_mismatch_surfaces_unmatched_witness :
    (([(1 : ℚ), 2, 3]).length ≠ 4096) ∧
    (search_point true [1, 2, 3] exResultC5 = .invalidEmbedding ∧
     clientSearchPoint (search_point true [1, 2, 3] exResultC5) = [] ∧
     recognizeFromSearch (search_point true [1, 2, 3] exResultC5) =
       .unmatched) :=
  ⟨by decide, dim_mismatch_surfaces_unmatched [1, 2, 3] exResultC5 (by decide)⟩

/-- C9: an enroll request without the update flag whose pipeline produced an
embedding is refused as a duplicate whenever the resolver returns any
non-empty match, and the store is left unchanged. -/
theorem duplicate_enroll_refused (id name : Option String) (img_len : Nat)
    (role store_id : String) (env : ProviderEnv)
    (searchResp : SearchResponse) (freshId : Nat) (now : String)
    (store : List StoredPoint) (emb : List ℚ)
    (hcond : (check_condition false id name img_len role store_id).1 = true)
    (hrole : role = "1" ∨ role = "0")
    (hemb : detect_and_embed_face true false env = .okEmb emb)
    (hdup : search_face searchResp ≠ []) :
    create_face false false id name img_len role store_id true env searchResp
      freshId now store = (.duplicate, store) := by
  have hrole2 : ¬ (role ≠ "1" ∧ role ≠ "0") := by
    rcases hrole with h | h <;> simp [h]
  have hlen : 0 < (search_face searchResp).length := List.length_pos.mpr hdup
  simp [create_face, hcond, hrole2, hemb, hlen]

/-- Witness for C9: a concrete duplicate enroll attempt is refused and leaves
the store untouched. -/
theorem duplicate_enroll_refused_witness :
    (check_condition false (some "X") (some "Nina") 1 "1" "s1").1 = true ∧
    detect_and_embed_face true false envEnroll = .okEmb [1] ∧
    search_face (SearchResponse.found (9/10) pidX) ≠ [] ∧
    create_face false false (some "X") (some "Nina") 1 "1" "s1" true envEnroll
      (SearchResponse.found (9/10) pidX) 7 "2024/02/02" store0 =
      (.duplicate, store0) :=
  ⟨by decide, by decide, by decide,
   duplicate_enroll_refused (some "X") (some "Nina") 1 "1" "s1" envEnroll
     (SearchResponse.found (9/10) pidX) 7 "2024/02/02" store0 [1]
     (by decide) (Or.inl rfl) (by decide) (by decide)⟩

/-- C4 evaluated at the failing input: an update-flagged enroll skips the
duplicate check but inserts a brand-new point with a fresh point id, because
the service passes is_update_id as False; the old record for the subject id
stays in the store, which afterwards holds two records for that id. -/
theorem update_flag_adds_second_record :
    create_face false true (some "X") (some "New Name") 1 "1" "s1" true
      envUpdate (SearchResponse.found (9/10) pidX) 1 "2024/02/02" store0 =
      (.created,
        [⟨0, oldVec, ⟨"X", "Old Name", "s1", "2024/01/01"⟩⟩,
         ⟨1, newVec, ⟨"X", "New Name", "s1", "2024/02/02"⟩⟩]) ∧
    (_get_points (create_face false true (some "X") (some "New Name") 1 "1"
        "s1" true envUpdate (SearchResponse.found (9/10) pidX) 1 "2024/02/02"
        store0).2 "X").length = 2 := by
  have hpipe : detect_and_embed_face true false envUpdate = .okEmb newVec := rfl
  have hlen : newVec.length = 4096 := List.length_replicate 4096 (1/2)
  have hins := insert_point_fresh 1 "2024/02/02" store0 newVec "X" "New Name"
    "s1" hlen (by decide)
  have hup : upsertPoint store0
      ⟨1, newVec, ⟨"X", "New Name", "s1", "2024/02/02"⟩⟩ =
      [⟨0, oldVec, ⟨"X", "Old Name", "s1", "2024/01/01"⟩⟩,
       ⟨1, newVec, ⟨"X", "New Name", "s1", "2024/02/02"⟩⟩] := by
    simp [upsertPoint, store0]
  have hcf : create_face false true (some "X") (some "New Name") 1 "1" "s1"
      true envUpdate (SearchResponse.found (9/10) pidX) 1 "2024/02/02" store0 =
      (.created,
        [⟨0, oldVec, ⟨"X", "Old Name", "s1", "2024/01/01"⟩⟩,
         ⟨1, newVec, ⟨"X", "New Name", "s1", "2024/02/02"⟩⟩]) := by
    simp [create_face, check_condition, hpipe, hins, hup]
  refine ⟨hcf, ?_⟩
  rw [hcf]
  simp [_get_points]

end FaceRec
